import Mathlib

/-!
Shallow embedding of `packages/tracing/src/browser/request.ts` (request
instrumentation: origin filter with memoization, span correlation registry,
fetch/xhr callbacks) together with a spec-modelled sampling function for the
behaviour exercised by `packages/tracing/test/hub.test.ts`.

JS `Record<string, T>` objects are modelled as association lists
`List (String × T)` with first-match lookup, in-place overwrite on assignment
and single-occurrence removal on `delete`.
-/

namespace Request

/-- Lookup in a JS object: first pair whose key equals `k`. -/
def lookupKey {α : Type} : List (String × α) → String → Option α
  | [], _ => none
  | p :: ps, k => if p.1 == k then some p.2 else lookupKey ps k

/-- JS assignment `obj[k] = v`: replace the entry for `k` in place, or append. -/
def setKey {α : Type} : List (String × α) → String → α → List (String × α)
  | [], k, v => [(k, v)]
  | p :: ps, k, v => if p.1 == k then (k, v) :: ps else p :: setKey ps k v

/-- JS `delete obj[k]`: drop the entry for `k`. -/
def eraseKey {α : Type} : List (String × α) → String → List (String × α)
  | [], _ => []
  | p :: ps, k => if p.1 == k then ps else p :: eraseKey ps k

/-- JS truthiness of an optional number (`undefined` and `0` are falsy). -/
def jsTruthyNum : Option Nat → Bool
  | none => false
  | some n => n != 0

/-- JS truthiness of an optional string (`undefined` and the empty string are falsy). -/
def jsTruthyStr : Option String → Bool
  | none => false
  | some s => s != ""

/-- Whether `needle` starts `hay` (character lists). -/
def startsWithChars : List Char → List Char → Bool
  | [], _ => true
  | _ :: _, [] => false
  | n :: ns, h :: hs => (n == h) && startsWithChars ns hs

/-- Whether `needle` occurs somewhere in `hay` (character lists). -/
def hasSubChars : List Char → List Char → Bool
  | [], needle => needle.isEmpty
  | h :: hs, needle => startsWithChars needle (h :: hs) || hasSubChars hs needle

/-- JS `haystack.indexOf(needle) !== -1`: substring containment
(the empty needle always matches). -/
def strIncludes (haystack needle : String) : Bool :=
  hasSubChars haystack.data needle.data

/-- Modelled from the spec: an origin matcher is an exact substring or a
pattern (§4.3 "a configured ordered list of origin matchers (exact substrings
or patterns)"); the `isMatchingPattern` helper lives in the utilities package,
outside the analysed sources, so patterns beyond substrings are abstracted as
boolean predicates. -/
inductive Pattern where
  | str (s : String)
  | pred (f : String → Bool)

/-- Modelled from the spec: `isMatchingPattern(url, origin)` from the
utilities package — substring test for string matchers, predicate application
otherwise. -/
def isMatchingPattern (url : String) : Pattern → Bool
  | .str s => strIncludes url s
  | .pred f => f url

/-- State of the origin filter: the `urlMap` memoization cache from
`registerRequestInstrumentation`, plus a matcher-invocation counter (the
observable the spec's §8 memoization property is stated with). -/
structure FilterState where
  urlMap : List (String × Bool)
  matcherCalls : Nat
  deriving DecidableEq

/-- The `const urlMap = {}` initial state (no cached decision, no matcher call). -/
def initialFilterState : FilterState := ⟨[], 0⟩

/-- The loop `origins.some(origin => isMatchingPattern(url, origin))` with short-circuit,
returning the boolean and the number of matcher invocations performed. -/
def countSome (url : String) : List Pattern → Bool × Nat
  | [] => (false, 0)
  | p :: ps =>
    if isMatchingPattern url p then (true, 1)
    else
      let r := countSome url ps
      (r.1, r.2 + 1)

/-- The memo-free body of `defaultShouldCreateSpan`:
`origins.some(o => isMatchingPattern(url, o)) && !isMatchingPattern(url, 'sentry_key')`
(the second conjunct is only evaluated when the first is true), returning the
decision and the matcher-invocation count. -/
def computeDecision (origins : List Pattern) (url : String) : Bool × Nat :=
  let s := countSome url origins
  if s.1 then (!(isMatchingPattern url (Pattern.str "sentry_key")), s.2 + 1)
  else (false, s.2)

/-- Function `defaultShouldCreateSpan` from `registerRequestInstrumentation`:
`if (urlMap[url]) return urlMap[url];` then recompute, store and return.
Note the guard is JS truthiness of the cached boolean, so only a cached
`true` short-circuits. -/
def defaultShouldCreateSpan (origins : List Pattern) (st : FilterState) (url : String) :
    Bool × FilterState :=
  match lookupKey st.urlMap url with
  | some true => (true, st)
  | _ =>
    let c := computeDecision origins url
    (c.1, { urlMap := setKey st.urlMap url c.1, matcherCalls := st.matcherCalls + c.2 })

/-- The memo cache holds only decisions the memo-free body computes (true of
every state reachable from `initialFilterState`, whose cache is empty). -/
def cacheConsistent (origins : List Pattern) (st : FilterState) : Prop :=
  ∀ u b, lookupKey st.urlMap u = some b → b = (computeDecision origins u).1

/-- The `shouldCreateSpan` local of `registerRequestInstrumentation`: the
default filter when no user predicate is configured, otherwise
`defaultShouldCreateSpan(url) && shouldCreateSpanForRequest(url)`. -/
def shouldCreateSpanOf (origins : List Pattern) (p : Option (String → Bool))
    (st : FilterState) (url : String) : Bool × FilterState :=
  match p with
  | none => defaultShouldCreateSpan origins st url
  | some f =>
    let r := defaultShouldCreateSpan origins st url
    (r.1 && f url, r.2)

/-- Modelled from the spec: a Span as the callbacks observe it — identifiers
copied from the owning transaction, description/op/data set at `startChild`,
status and finished flag set by the end path. `Span`'s own class
(`src/span.ts`) is not part of the analysed sources (§3 of the spec). -/
structure Span where
  spanId : String
  traceId : String
  sampled : Option Bool
  description : String
  op : String
  dataType : String
  extraData : List (String × String)
  httpStatus : Option Nat
  finished : Bool
  deriving DecidableEq

/-- Modelled from the spec: `span.setData(key, value)`. -/
def Span.setData (s : Span) (k v : String) : Span :=
  { s with extraData := setKey s.extraData k v }

/-- Modelled from the spec: `span.setHttpStatus(code)` records the response
status (§4.5 "sets response status (when available)"). -/
def Span.setHttpStatus (s : Span) (code : Nat) : Span :=
  { s with httpStatus := some code }

/-- Modelled from the spec: `span.finish()` sets the end timestamp and hands
the span to the trace-tree sink; here a finished flag. -/
def Span.finish (s : Span) : Span :=
  { s with finished := true }

/-- Modelled from the spec: `span.toTraceparent()` serializes per the §4.2
grammar `trace-id "-" span-id ["-" sampled-flag]`. -/
def Span.toTraceparent (s : Span) : String :=
  s.traceId ++ "-" ++ s.spanId ++
    (match s.sampled with
     | none => ""
     | some true => "-1"
     | some false => "-0")

/-- Modelled from the spec: the active transaction as the callbacks use it —
it supplies the trace id, the fixed sampling decision, and the id the next
`startChild` will assign (ids are generated outside the analysed sources). -/
structure Transaction where
  traceId : String
  sampled : Option Bool
  nextSpanId : String
  deriving DecidableEq

/-- Modelled from the spec: `activeTransaction.startChild({data, description, op})`
creates a child span copying the transaction's trace id and sampling
decision (§4.5). -/
def Transaction.startChild (t : Transaction) (description op dataType : String)
    (extraData : List (String × String)) : Span :=
  { spanId := t.nextSpanId
    traceId := t.traceId
    sampled := t.sampled
    description := description
    op := op
    dataType := dataType
    extraData := extraData
    httpStatus := none
    finished := false }

/-- The three duck-typed header-sink shapes of `_fetchCallback`: an object
with an `append` method, an array of `[name, value]` pairs, or a plain
string-to-string mapping. -/
inductive HeadersVal where
  | appendable (entries : List (String × String))
  | pairs (entries : List (String × String))
  | mapping (entries : List (String × String))
  deriving DecidableEq

/-- The header write of `_fetchCallback` lines 187-199: append for an
appendable sink, `[...headers, pair]` for an array, `{...headers, key: v}`
for a mapping, and a fresh one-entry mapping when no sink exists. -/
def addTraceHeader (v : String) : Option HeadersVal → HeadersVal
  | none => .mapping [("sentry-trace", v)]
  | some (.appendable hs) => .appendable (hs ++ [("sentry-trace", v)])
  | some (.pairs hs) => .pairs (hs ++ [("sentry-trace", v)])
  | some (.mapping hs) => .mapping (setKey hs "sentry-trace" v)

/-- Field `handlerData.fetchData`: method, url and the `__span` back-reference. -/
structure FetchData where
  method : String
  url : String
  span : Option String
  deriving DecidableEq

/-- Field `handlerData.args[1]` (the fetch options object). -/
structure FetchOptions where
  headers : Option HeadersVal
  deriving DecidableEq

/-- A fetch instrumentation event (`FetchData` interface of request.ts):
`requestArg` is `args[0].headers` when `args[0]` is a `Request` instance,
`optionsArg` is `args[1]` when present, `response` is the response status. -/
structure FetchEvent where
  fetchData : Option FetchData
  response : Option Nat
  startTimestamp : Nat
  endTimestamp : Option Nat
  requestArg : Option HeadersVal
  optionsArg : Option FetchOptions
  deriving DecidableEq

/-- Result of one callback run: the (possibly mutated) event, the spans
registry, and the span finalized by an end path, if any. -/
structure FetchResult where
  event : FetchEvent
  spans : List (String × Span)
  finalized : Option Span
  deriving DecidableEq

/-- The call `span.setHttpStatus(response.status)` guarded by `if (response)`. -/
def applyResponseStatus (response : Option Nat) (s : Span) : Span :=
  match response with
  | some code => s.setHttpStatus code
  | none => s

/-- Resolution of the header sink in `_fetchCallback` lines 180-186:
`options = args[1] || {}`, `headers = options.headers`, overridden by
`request.headers` when `args[0]` is a `Request` instance. -/
def effectiveSink (h : FetchEvent) : Option HeadersVal :=
  match h.requestArg with
  | some rh => some rh
  | none =>
    (match h.optionsArg with
     | some o => o
     | none => { headers := none }).headers

/-- In the appendable branch `headers.append(...)` mutates the `Request`'s own
headers object in place; in the other branches a fresh value is built and the
`Request` (if any) is untouched. -/
def updatedRequestArg (v : String) : Option HeadersVal → Option HeadersVal
  | some (.appendable hs) => some (.appendable (hs ++ [("sentry-trace", v)]))
  | other => other

/-- The `activeTransaction.startChild({data: {...fetchData, type: 'fetch'},
description, op: 'http'})` call of `_fetchCallback`. -/
def fetchSpanOf (t : Transaction) (fd : FetchData) : Span :=
  t.startChild (fd.method ++ " " ++ fd.url) "http" "fetch"
    [("method", fd.method), ("url", fd.url)]

/-- Function `_fetchCallback(handlerData, shouldCreateSpan, spans)`, the fetch arm of
the coordinator. The registry is passed in and returned; the finalized span
(handed to the trace-tree sink by `span.finish()`) is returned explicitly. -/
def _fetchCallback (shouldCreateSpan : String → Bool) (activeTransaction : Option Transaction)
    (h : FetchEvent) (spans : List (String × Span)) : FetchResult :=
  match h.fetchData with
  | none => ⟨h, spans, none⟩
  | some fd =>
    if !shouldCreateSpan fd.url then ⟨h, spans, none⟩
    else if jsTruthyNum h.endTimestamp && jsTruthyStr fd.span then
      match fd.span with
      | none => ⟨h, spans, none⟩
      | some key =>
        match lookupKey spans key with
        | none => ⟨h, spans, none⟩
        | some sp =>
          ⟨h, eraseKey spans key, some (applyResponseStatus h.response sp).finish⟩
    else
      match activeTransaction with
      | none => ⟨h, spans, none⟩
      | some t =>
        let sp := fetchSpanOf t fd
        ⟨{ h with
            fetchData := some { fd with span := some sp.spanId }
            optionsArg := some { headers := some (addTraceHeader sp.toTraceparent (effectiveSink h)) }
            requestArg := updatedRequestArg sp.toTraceparent h.requestArg },
         setKey spans sp.spanId sp, none⟩

/-- Behaviour of the optional `xhr.setRequestHeader` capability: absent,
present and succeeding, or present and throwing (the `InvalidStateError`
case caught at the write site). -/
inductive SinkBehavior where
  | absent
  | ok
  | throws
  deriving DecidableEq

/-- Field `__sentry_xhr__`: method, url, status code and request data. -/
structure XhrInfo where
  method : String
  url : String
  status_code : Nat
  data : List (String × String)
  deriving DecidableEq

/-- Field `handlerData.xhr`: the sentry bookkeeping on the XHR object, the
own-request flag, the optional `setRequestHeader` capability, and the headers
successfully written through it. -/
structure XhrSide where
  sentry_xhr : Option XhrInfo
  span_id : Option String
  own_request : Bool
  sink : SinkBehavior
  requestHeaders : List (String × String)
  deriving DecidableEq

/-- The guarded header write of `xhrCallback` lines 254-260:
`try { setRequestHeader('sentry-trace', v) } catch (_) {}` — nothing happens
when the capability is absent or when the write throws (the exception is
swallowed at the write site). -/
def xhrWriteHeader (x : XhrSide) (v : String) : XhrSide :=
  match x.sink with
  | .absent => x
  | .ok => { x with requestHeaders := x.requestHeaders ++ [("sentry-trace", v)] }
  | .throws => x

/-- An XHR instrumentation event (`XHRData` interface of request.ts). -/
structure XhrEvent where
  xhr : Option XhrSide
  startTimestamp : Nat
  endTimestamp : Option Nat
  deriving DecidableEq

/-- Result of one `xhrCallback` run, mirroring `FetchResult`. -/
structure XhrResult where
  event : XhrEvent
  spans : List (String × Span)
  finalized : Option Span
  deriving DecidableEq

/-- The `activeTransaction.startChild({data: {...xhr.data, type: 'xhr'},
description, op: 'http'})` call of `xhrCallback`. -/
def xhrSpanOf (t : Transaction) (info : XhrInfo) : Span :=
  t.startChild (info.method ++ " " ++ info.url) "http" "xhr" info.data

/-- Function `xhrCallback(handlerData, shouldCreateSpan, spans)`, the XHR arm of the
coordinator. The guards run in source order: missing xhr data, origin filter,
own-request flag, end path, then span creation with the guarded
`setRequestHeader` write (`try { ... } catch (_) {}`). -/
def xhrCallback (shouldCreateSpan : String → Bool) (activeTransaction : Option Transaction)
    (h : XhrEvent) (spans : List (String × Span)) : XhrResult :=
  match h.xhr with
  | none => ⟨h, spans, none⟩
  | some x =>
    match x.sentry_xhr with
    | none => ⟨h, spans, none⟩
    | some info =>
      if !shouldCreateSpan info.url then ⟨h, spans, none⟩
      else if x.own_request then ⟨h, spans, none⟩
      else if jsTruthyNum h.endTimestamp && jsTruthyStr x.span_id then
        match x.span_id with
        | none => ⟨h, spans, none⟩
        | some key =>
          match lookupKey spans key with
          | none => ⟨h, spans, none⟩
          | some sp =>
            let sp := (sp.setData "url" info.url).setData "method" info.method
            ⟨h, eraseKey spans key, some (sp.setHttpStatus info.status_code).finish⟩
      else
        match activeTransaction with
        | none => ⟨h, spans, none⟩
        | some t =>
          let sp := xhrSpanOf t info
          ⟨{ h with xhr := some (xhrWriteHeader { x with span_id := some sp.spanId }
              sp.toTraceparent) },
           setKey spans sp.spanId sp, none⟩

end Request

namespace Sampling

/-- A sample rate or sampler return value as the host language sees it: a
boolean, a finite number (rationals stand in for host floats), or anything
else (`invalid` covers non-numbers and NaN). -/
inductive SampleValue where
  | ofBool (b : Bool)
  | ofNum (q : ℚ)
  | invalid

/-- Modelled from the spec: rate validation (§4.1) — booleans pass, numbers
must lie in [0,1], everything else is rejected with a diagnostic. -/
def isValidRate : SampleValue → Bool
  | .ofBool _ => true
  | .ofNum q => decide (0 ≤ q) && decide (q ≤ 1)
  | .invalid => false

/-- Modelled from the spec: turning a validated rate into a decision — a
boolean passes through, a number is a probability compared against a uniform
draw in [0,1). -/
def rateToDecision (v : SampleValue) (draw : ℚ) : Bool :=
  match v with
  | .ofBool b => b
  | .ofNum q => decide (draw < q)
  | .invalid => false

/-- The sampling-relevant part of the transaction context: an explicit
`sampled` set by the caller, and the parent decision `parentSampled`. -/
structure SamplingCtx where
  explicitSampled : Option Bool
  parentSampled : Option Bool

/-- Sampling configuration: optional fixed rate and optional sampler. -/
structure SamplingConfig where
  sampleRate : Option SampleValue
  sampler : Option (SamplingCtx → SampleValue)

/-- Modelled from the spec: the §4.1 sampling precedence, first match wins —
explicit caller decision, then sampler (validated, diagnostic + NotSampled on
failure), then verbatim parent inheritance, then validated fixed rate, else
NotSampled. The sampling engine (`hubextensions.ts`) is not part of the
analysed sources; only its tests are. -/
def sampleTransaction (cfg : SamplingConfig) (ctx : SamplingCtx) (draw : ℚ) : Bool :=
  match ctx.explicitSampled with
  | some b => b
  | none =>
    match cfg.sampler with
    | some f =>
      let v := f ctx
      if isValidRate v then rateToDecision v draw else false
    | none =>
      match ctx.parentSampled with
      | some b => b
      | none =>
        match cfg.sampleRate with
        | some r => if isValidRate r then rateToDecision r draw else false
        | none => false

end Sampling

namespace Fixtures

/-- A concrete active transaction (trace id `abc`, sampled, next span id `def`). -/
def tW : Request.Transaction :=
  { traceId := "abc", sampled := some true, nextSpanId := "def" }

/-- A concrete fetch payload for the URL `localhost/api`. -/
def fetchDataW : Request.FetchData :=
  { method := "GET", url := "localhost/api", span := none }

/-- A concrete fetch start event (no end timestamp, no header sink yet). -/
def fetchStartW : Request.FetchEvent :=
  { fetchData := some fetchDataW, response := none, startTimestamp := 1,
    endTimestamp := none, requestArg := none, optionsArg := none }

/-- The fetch start event with a plain-mapping sink already holding a
`sentry-trace` entry. -/
def fetchStartMapW : Request.FetchEvent :=
  { fetchStartW with
      optionsArg := some { headers := some (.mapping [("sentry-trace", "old")]) } }

/-- A span registered in the registry under the key `k`. -/
def regSpanW : Request.Span :=
  { spanId := "k", traceId := "abc", sampled := some true,
    description := "GET localhost/api", op := "http", dataType := "fetch",
    extraData := [], httpStatus := none, finished := false }

/-- A prior span occupying the registry key `def` (the id `tW` will assign next). -/
def oldSpanW : Request.Span :=
  { spanId := "def", traceId := "zzz", sampled := none, description := "OLD",
    op := "http", dataType := "fetch", extraData := [], httpStatus := none,
    finished := false }

/-- A fetch end event carrying the correlation key `k` and a 200 response. -/
def fetchEndW : Request.FetchEvent :=
  { fetchData := some { method := "GET", url := "localhost/api", span := some "k" },
    response := some 200, startTimestamp := 1, endTimestamp := some 5,
    requestArg := none, optionsArg := none }

/-- A concrete `__sentry_xhr__` payload. -/
def xhrInfoW : Request.XhrInfo :=
  { method := "GET", url := "localhost/api", status_code := 200, data := [] }

/-- XHR bookkeeping for a fresh, non-own request with a working header sink. -/
def xhrSideW : Request.XhrSide :=
  { sentry_xhr := some xhrInfoW, span_id := none, own_request := false,
    sink := .ok, requestHeaders := [] }

/-- A concrete XHR start event. -/
def xhrStartW : Request.XhrEvent :=
  { xhr := some xhrSideW, startTimestamp := 1, endTimestamp := none }

/-- The XHR start event flagged as the engine's own outgoing request. -/
def xhrOwnW : Request.XhrEvent :=
  { xhr := some { xhrSideW with own_request := true }, startTimestamp := 1,
    endTimestamp := none }

/-- The XHR start event whose `setRequestHeader` throws. -/
def xhrThrowW : Request.XhrEvent :=
  { xhr := some { xhrSideW with sink := .throws }, startTimestamp := 1,
    endTimestamp := none }

/-- An XHR end event carrying the correlation key `k`. -/
def xhrEndW : Request.XhrEvent :=
  { xhr := some { xhrSideW with span_id := some "k" }, startTimestamp := 1,
    endTimestamp := some 5 }

end Fixtures

namespace Request

/-- A JS object has pairwise-distinct keys. -/
def keysUnique {α : Type} (m : List (String × α)) : Prop :=
  (m.map Prod.fst).Nodup

theorem lookupKey_setKey_self {α : Type} (m : List (String × α)) (k : String) (v : α) :
    lookupKey (setKey m k v) k = some v := by
  induction m with
  | nil => simp [setKey, lookupKey]
  | cons p ps ih =>
    by_cases h : p.1 = k
    · simp [setKey, lookupKey, h]
    · simp [setKey, lookupKey, h, ih]

theorem lookupKey_setKey_ne {α : Type} (m : List (String × α)) (k k' : String) (v : α)
    (h : k' ≠ k) : lookupKey (setKey m k v) k' = lookupKey m k' := by
  have h' : ¬k = k' := fun hk => h hk.symm
  induction m with
  | nil => simp [setKey, lookupKey, h']
  | cons p ps ih =>
    by_cases hp : p.1 = k
    · simp [setKey, lookupKey, hp, h']
    · by_cases hp' : p.1 = k'
      · simp [setKey, lookupKey, hp, hp', h]
      · simp [setKey, lookupKey, hp, hp', ih]

theorem lookupKey_eq_none {α : Type} (m : List (String × α)) (k : String)
    (h : k ∉ m.map Prod.fst) : lookupKey m k = none := by
  induction m with
  | nil => simp [lookupKey]
  | cons p ps ih =>
    simp only [List.map_cons, List.mem_cons] at h
    push_neg at h
    have h1 : ¬p.1 = k := fun hk => h.1 hk.symm
    simp [lookupKey, h1, ih h.2]

theorem lookupKey_eraseKey_self {α : Type} (m : List (String × α)) (k : String)
    (h : keysUnique m) : lookupKey (eraseKey m k) k = none := by
  induction m with
  | nil => simp [eraseKey, lookupKey]
  | cons p ps ih =>
    simp only [keysUnique, List.map_cons, List.nodup_cons] at h
    by_cases hp : p.1 = k
    · simpa [eraseKey, hp] using lookupKey_eq_none ps k (hp ▸ h.1)
    · simp [eraseKey, lookupKey, hp, ih h.2]

theorem setKey_map_fst {α : Type} (m : List (String × α)) (k : String) (v : α) :
    (setKey m k v).map Prod.fst =
      if k ∈ m.map Prod.fst then m.map Prod.fst else m.map Prod.fst ++ [k] := by
  induction m with
  | nil => simp [setKey]
  | cons p ps ih =>
    by_cases hp : p.1 = k
    · simp [setKey, hp]
    · have hkp : ¬k = p.1 := fun hk => hp hk.symm
      by_cases hmem : k ∈ ps.map Prod.fst
      · simp [setKey, hp, hkp, hmem, ih]
      · simp [setKey, hp, hkp, hmem, ih]

theorem keysUnique_setKey {α : Type} (m : List (String × α)) (k : String) (v : α)
    (h : keysUnique m) : keysUnique (setKey m k v) := by
  unfold keysUnique at h ⊢
  rw [setKey_map_fst]
  by_cases hmem : k ∈ m.map Prod.fst
  · simpa [hmem] using h
  · simp only [hmem, if_false]
    refine List.Nodup.append h (List.nodup_singleton k) ?_
    simp [List.disjoint_singleton, hmem]

theorem countSome_fst (url : String) (ps : List Pattern) :
    (countSome url ps).1 = ps.any (fun p => isMatchingPattern url p) := by
  induction ps with
  | nil => simp [countSome]
  | cons p ps ih =>
    by_cases h : isMatchingPattern url p = true
    · simp [countSome, h]
    · simp only [Bool.not_eq_true] at h
      simp [countSome, h, ih]

theorem computeDecision_fst (origins : List Pattern) (url : String) :
    (computeDecision origins url).1 =
      (origins.any (fun p => isMatchingPattern url p) &&
        !(isMatchingPattern url (Pattern.str "sentry_key"))) := by
  by_cases h : (countSome url origins).1 = true
  · simp [computeDecision, h, ← countSome_fst]
  · simp only [Bool.not_eq_true] at h
    simp [computeDecision, h, ← countSome_fst]

/-- Characterization of the fetch start path: with fetch data present, an
eligible URL, no end condition and an active transaction, `_fetchCallback`
registers the new child span under its id, stashes the id in `__span`, and
writes the trace header into the effective sink. -/
theorem fetchCallback_startPath (s : String → Bool) (t : Transaction) (h : FetchEvent)
    (spans : List (String × Span)) (fd : FetchData)
    (hfd : h.fetchData = some fd) (hs : s fd.url = true)
    (hend : (jsTruthyNum h.endTimestamp && jsTruthyStr fd.span) = false) :
    _fetchCallback s (some t) h spans =
      ⟨{ h with
          fetchData := some { fd with span := some (fetchSpanOf t fd).spanId },
          optionsArg := some { headers := some (addTraceHeader
            (fetchSpanOf t fd).toTraceparent (effectiveSink h)) },
          requestArg := updatedRequestArg (fetchSpanOf t fd).toTraceparent h.requestArg },
       setKey spans (fetchSpanOf t fd).spanId (fetchSpanOf t fd), none⟩ := by
  unfold _fetchCallback
  rw [hfd]
  simp [hs, hend]

/-- Characterization of the fetch end path: with an end timestamp, a truthy
`__span` key and a registered span, `_fetchCallback` finalizes that span
(response status applied when present) and removes its registry entry. -/
theorem fetchCallback_endPath (s : String → Bool) (t : Option Transaction) (h : FetchEvent)
    (spans : List (String × Span)) (fd : FetchData) (key : String) (sp : Span)
    (hfd : h.fetchData = some fd) (hs : s fd.url = true) (hkey : fd.span = some key)
    (hend : (jsTruthyNum h.endTimestamp && jsTruthyStr fd.span) = true)
    (hl : lookupKey spans key = some sp) :
    _fetchCallback s t h spans =
      ⟨h, eraseKey spans key, some (applyResponseStatus h.response sp).finish⟩ := by
  unfold _fetchCallback
  rw [hfd]
  rw [hkey] at hend
  simp [hs, hkey, hend, hl]

/-- The fetch end path is a silent no-op when the key is not registered. -/
theorem fetchCallback_endPath_missing (s : String → Bool) (t : Option Transaction)
    (h : FetchEvent) (spans : List (String × Span)) (fd : FetchData) (key : String)
    (hfd : h.fetchData = some fd) (hs : s fd.url = true) (hkey : fd.span = some key)
    (hend : (jsTruthyNum h.endTimestamp && jsTruthyStr fd.span) = true)
    (hl : lookupKey spans key = none) :
    _fetchCallback s t h spans = ⟨h, spans, none⟩ := by
  unfold _fetchCallback
  rw [hfd]
  rw [hkey] at hend
  simp [hs, hkey, hend, hl]

/-- Characterization of the XHR start path: with xhr data present, an
eligible URL, a non-own request, no end condition and an active transaction,
`xhrCallback` registers the new child span under its id, stashes the id in
`__sentry_xhr_span_id__`, and performs the guarded header write. -/
theorem xhrCallback_startPath (s : String → Bool) (t : Transaction) (h : XhrEvent)
    (spans : List (String × Span)) (x : XhrSide) (info : XhrInfo)
    (hx : h.xhr = some x) (hinfo : x.sentry_xhr = some info) (hs : s info.url = true)
    (hown : x.own_request = false)
    (hend : (jsTruthyNum h.endTimestamp && jsTruthyStr x.span_id) = false) :
    xhrCallback s (some t) h spans =
      ⟨{ h with xhr := some (xhrWriteHeader { x with span_id := some (xhrSpanOf t info).spanId }
          (xhrSpanOf t info).toTraceparent) },
       setKey spans (xhrSpanOf t info).spanId (xhrSpanOf t info), none⟩ := by
  unfold xhrCallback
  rw [hx]
  simp [hinfo, hs, hown, hend]

/-- Characterization of the XHR end path: with an end timestamp, a truthy
`__sentry_xhr_span_id__` and a registered span, `xhrCallback` finalizes that
span (url/method data and status applied) and removes its registry entry. -/
theorem xhrCallback_endPath (s : String → Bool) (t : Option Transaction) (h : XhrEvent)
    (spans : List (String × Span)) (x : XhrSide) (info : XhrInfo) (key : String) (sp : Span)
    (hx : h.xhr = some x) (hinfo : x.sentry_xhr = some info) (hs : s info.url = true)
    (hown : x.own_request = false) (hkey : x.span_id = some key)
    (hend : (jsTruthyNum h.endTimestamp && jsTruthyStr x.span_id) = true)
    (hl : lookupKey spans key = some sp) :
    xhrCallback s t h spans =
      ⟨h, eraseKey spans key,
       some ((((sp.setData "url" info.url).setData "method" info.method).setHttpStatus
         info.status_code).finish)⟩ := by
  unfold xhrCallback
  rw [hx]
  rw [hkey] at hend
  simp [hinfo, hs, hown, hkey, hend, hl]

/-- The XHR end path is a silent no-op when the key is not registered. -/
theorem xhrCallback_endPath_missing (s : String → Bool) (t : Option Transaction)
    (h : XhrEvent) (spans : List (String × Span)) (x : XhrSide) (info : XhrInfo)
    (key : String)
    (hx : h.xhr = some x) (hinfo : x.sentry_xhr = some info) (hs : s info.url = true)
    (hown : x.own_request = false) (hkey : x.span_id = some key)
    (hend : (jsTruthyNum h.endTimestamp && jsTruthyStr x.span_id) = true)
    (hl : lookupKey spans key = none) :
    xhrCallback s t h spans = ⟨h, spans, none⟩ := by
  unfold xhrCallback
  rw [hx]
  rw [hkey] at hend
  simp [hinfo, hs, hown, hkey, hend, hl]

/-- On a consistent cache the memoized decision agrees with the memo-free body. -/
theorem defaultShouldCreateSpan_fst (origins : List Pattern) (st : FilterState) (url : String)
    (h : cacheConsistent origins st) :
    (defaultShouldCreateSpan origins st url).1 = (computeDecision origins url).1 := by
  unfold defaultShouldCreateSpan
  rcases hl : lookupKey st.urlMap url with _ | b
  · simp [hl]
  · rcases b with _ | _
    · simp [hl]
    · simpa [hl] using (h url true hl).symm

/-- Every call preserves cache consistency, so consistency holds in every
state reachable from the initial empty cache. -/
theorem cacheConsistent_step (origins : List Pattern) (st : FilterState) (url : String)
    (h : cacheConsistent origins st) :
    cacheConsistent origins (defaultShouldCreateSpan origins st url).2 := by
  unfold defaultShouldCreateSpan
  rcases hl : lookupKey st.urlMap url with _ | b
  · simp only [hl]
    intro u b hb
    simp only at hb
    by_cases hu : u = url
    · subst hu
      rw [lookupKey_setKey_self] at hb
      cases hb
      rfl
    · rw [lookupKey_setKey_ne _ _ _ _ hu] at hb
      exact h u b hb
  · rcases b with _ | _
    · simp only [hl]
      intro u b hb
      simp only at hb
      by_cases hu : u = url
      · subst hu
        rw [lookupKey_setKey_self] at hb
        cases hb
        rfl
      · rw [lookupKey_setKey_ne _ _ _ _ hu] at hb
        exact h u b hb
    · simp only [hl]
      exact h

/-- The initial empty cache is consistent. -/
theorem cacheConsistent_initial (origins : List Pattern) :
    cacheConsistent origins initialFilterState := by
  intro u b hb
  simp [initialFilterState, lookupKey] at hb

end Request

/-- C1 counterexample: with the default-style matcher list `['localhost']` and
the URL `"xyz"` (decision false), the second call with the same URL is NOT
answered from the memoization cache — the guard `if (urlMap[url])` is JS
truthiness, so a cached `false` does not short-circuit and the matchers run
again (matcher-invocation counter goes from 1 to 2), contradicting the claim
that pattern matching is performed only on the first call. The decision
itself is nonetheless the same on both calls. -/
theorem c1_counterexample :
    (Request.defaultShouldCreateSpan [Request.Pattern.str "localhost"]
        (Request.defaultShouldCreateSpan [Request.Pattern.str "localhost"]
          Request.initialFilterState "xyz").2 "xyz").2.matcherCalls = 2 ∧
    (Request.defaultShouldCreateSpan [Request.Pattern.str "localhost"]
        Request.initialFilterState "xyz").2.matcherCalls = 1 ∧
    (Request.defaultShouldCreateSpan [Request.Pattern.str "localhost"]
        (Request.defaultShouldCreateSpan [Request.Pattern.str "localhost"]
          Request.initialFilterState "xyz").2 "xyz").1 =
      (Request.defaultShouldCreateSpan [Request.Pattern.str "localhost"]
        Request.initialFilterState "xyz").1 := by
  decide

/-- C1 (amended): for every URL and any starting filter state, calling
`defaultShouldCreateSpan` twice with the same URL and unchanged configuration
returns the same boolean decision both times; when the first call decides
`true`, the second call is answered from the memoization cache without
invoking any matcher (the whole filter state, matcher counter included, is
unchanged). When the first call decides `false` the cached value does not
short-circuit and the matchers are re-run (see the counterexample). -/
theorem c1_memoized_decision (origins : List Request.Pattern) (st : Request.FilterState)
    (url : String) :
    ((Request.defaultShouldCreateSpan origins
        (Request.defaultShouldCreateSpan origins st url).2 url).1 =
      (Request.defaultShouldCreateSpan origins st url).1) ∧
    ((Request.defaultShouldCreateSpan origins st url).1 = true →
      (Request.defaultShouldCreateSpan origins
        (Request.defaultShouldCreateSpan origins st url).2 url).2 =
      (Request.defaultShouldCreateSpan origins st url).2) := by
  unfold Request.defaultShouldCreateSpan
  rcases hl : Request.lookupKey st.urlMap url with _ | b
  · have hself := Request.lookupKey_setKey_self st.urlMap url
      (Request.computeDecision origins url).1
    rcases hc : (Request.computeDecision origins url).1 with _ | _
    · simp [hl, hc ▸ hself, hc]
    · simp [hl, hc ▸ hself, hc]
  · rcases b with _ | _
    · have hself := Request.lookupKey_setKey_self st.urlMap url
        (Request.computeDecision origins url).1
      rcases hc : (Request.computeDecision origins url).1 with _ | _
      · simp [hl, hc ▸ hself, hc]
      · simp [hl, hc ▸ hself, hc]
    · simp [hl]

/-- C1 witness: for the eligible URL `"localhost/api"` the first call decides
`true` and the second call returns the same decision with the filter state
(matcher counter included) untouched. -/
theorem c1_memoized_decision_witness :
    ((Request.defaultShouldCreateSpan [Request.Pattern.str "localhost"]
        (Request.defaultShouldCreateSpan [Request.Pattern.str "localhost"]
          Request.initialFilterState "localhost/api").2 "localhost/api").1 =
      (Request.defaultShouldCreateSpan [Request.Pattern.str "localhost"]
        Request.initialFilterState "localhost/api").1) ∧
    ((Request.defaultShouldCreateSpan [Request.Pattern.str "localhost"]
        Request.initialFilterState "localhost/api").1 = true) ∧
    ((Request.defaultShouldCreateSpan [Request.Pattern.str "localhost"]
        (Request.defaultShouldCreateSpan [Request.Pattern.str "localhost"]
          Request.initialFilterState "localhost/api").2 "localhost/api").2 =
      (Request.defaultShouldCreateSpan [Request.Pattern.str "localhost"]
        Request.initialFilterState "localhost/api").2) :=
  ⟨(c1_memoized_decision [Request.Pattern.str "localhost"]
      Request.initialFilterState "localhost/api").1,
   by decide,
   (c1_memoized_decision [Request.Pattern.str "localhost"]
      Request.initialFilterState "localhost/api").2 (by decide)⟩

/-- C4: starting from a consistent memo cache (in particular the empty one the
code allocates), the default origin-filter decision is `true` iff the URL
matches at least one configured origin matcher and does not match the
`'sentry_key'` reporting-endpoint pattern; a URL matching `'sentry_key'` is
never eligible regardless of the configured matchers. Every call preserves
cache consistency, so the hypothesis holds throughout any run. -/
theorem c4_default_decision (origins : List Request.Pattern) (st : Request.FilterState)
    (url : String) (h : Request.cacheConsistent origins st) :
    ((Request.defaultShouldCreateSpan origins st url).1 = true ↔
      (origins.any (fun p => Request.isMatchingPattern url p) = true ∧
        Request.isMatchingPattern url (Request.Pattern.str "sentry_key") = false)) ∧
    (Request.isMatchingPattern url (Request.Pattern.str "sentry_key") = true →
      (Request.defaultShouldCreateSpan origins st url).1 = false) ∧
    Request.cacheConsistent origins (Request.defaultShouldCreateSpan origins st url).2 := by
  have hd := Request.defaultShouldCreateSpan_fst origins st url h
  rw [Request.computeDecision_fst] at hd
  refine ⟨?_, ?_, Request.cacheConsistent_step origins st url h⟩
  · rw [hd]
    simp [Bool.and_eq_true, Bool.not_eq_true']
  · intro hs
    rw [hd, hs]
    simp

/-- C4 witness: `"localhost/api"` is eligible under the matcher `'localhost'`;
`"https://localhost/p?sentry_key=abc"` matches the same matcher yet is
rejected because it matches the reporting-endpoint pattern. -/
theorem c4_default_decision_witness :
    ((Request.defaultShouldCreateSpan [Request.Pattern.str "localhost"]
        Request.initialFilterState "localhost/api").1 = true ↔
      ([Request.Pattern.str "localhost"].any
          (fun p => Request.isMatchingPattern "localhost/api" p) = true ∧
        Request.isMatchingPattern "localhost/api"
          (Request.Pattern.str "sentry_key") = false)) ∧
    ((Request.defaultShouldCreateSpan [Request.Pattern.str "localhost"]
        Request.initialFilterState "https://localhost/p?sentry_key=abc").1 = false) :=
  ⟨(c4_default_decision [Request.Pattern.str "localhost"] Request.initialFilterState
      "localhost/api"
      (by intro u b hb; simp [Request.initialFilterState, Request.lookupKey] at hb)).1,
   (c4_default_decision [Request.Pattern.str "localhost"] Request.initialFilterState
      "https://localhost/p?sentry_key=abc"
      (by intro u b hb; simp [Request.initialFilterState, Request.lookupKey] at hb)).2.1
     (by decide)⟩

/-- C5: with a caller-supplied predicate configured, the effective decision of
the composed `shouldCreateSpan` equals the logical AND of the default
origin-filter decision and the predicate, so effective eligibility implies
default eligibility — the predicate refines and never widens it. -/
theorem c5_predicate_refines (origins : List Request.Pattern) (f : String → Bool)
    (st : Request.FilterState) (url : String) :
    ((Request.shouldCreateSpanOf origins (some f) st url).1 =
      ((Request.defaultShouldCreateSpan origins st url).1 && f url)) ∧
    ((Request.shouldCreateSpanOf origins (some f) st url).1 = true →
      (Request.defaultShouldCreateSpan origins st url).1 = true) := by
  refine ⟨rfl, fun h => ?_⟩
  have h' : ((Request.defaultShouldCreateSpan origins st url).1 && f url) = true := h
  exact (Bool.and_eq_true _ _).mp h' |>.1

/-- C5 witness: a predicate admitting `"localhost/api"` composed with the
`'localhost'` matcher yields an effective decision equal to the AND, and the
effective `true` forces the default decision `true`. -/
theorem c5_predicate_refines_witness :
    ((Request.shouldCreateSpanOf [Request.Pattern.str "localhost"]
        (some (fun u => u != "localhost/blocked"))
        Request.initialFilterState "localhost/api").1 =
      ((Request.defaultShouldCreateSpan [Request.Pattern.str "localhost"]
          Request.initialFilterState "localhost/api").1 &&
        (fun (u : String) => u != "localhost/blocked") "localhost/api")) ∧
    ((Request.defaultShouldCreateSpan [Request.Pattern.str "localhost"]
        Request.initialFilterState "localhost/api").1 = true) :=
  ⟨(c5_predicate_refines [Request.Pattern.str "localhost"]
      (fun u => u != "localhost/blocked")
      Request.initialFilterState "localhost/api").1,
   (c5_predicate_refines [Request.Pattern.str "localhost"]
      (fun u => u != "localhost/blocked")
      Request.initialFilterState "localhost/api").2 (by decide)⟩

/-- C7: an event whose URL the effective eligibility predicate rejects makes
both callbacks return without side effects — the event (arguments and header
sinks included) and the span registry are returned unchanged and no span is
created or finalized. -/
theorem c7_ineligible_no_side_effects :
    (∀ (s : String → Bool) (t : Option Request.Transaction) (h : Request.FetchEvent)
        (spans : List (String × Request.Span)) (fd : Request.FetchData),
        h.fetchData = some fd → s fd.url = false →
        Request._fetchCallback s t h spans = ⟨h, spans, none⟩) ∧
    (∀ (s : String → Bool) (t : Option Request.Transaction) (h : Request.XhrEvent)
        (spans : List (String × Request.Span)) (x : Request.XhrSide)
        (info : Request.XhrInfo),
        h.xhr = some x → x.sentry_xhr = some info → s info.url = false →
        Request.xhrCallback s t h spans = ⟨h, spans, none⟩) := by
  constructor
  · intro s t h spans fd hfd hs
    unfold Request._fetchCallback
    rw [hfd]
    simp [hs]
  · intro s t h spans x info hx hinfo hs
    unfold Request.xhrCallback
    rw [hx]
    simp [hinfo, hs]

/-- C7 witness: with a predicate rejecting every URL, both a concrete fetch
start event and a concrete XHR start event are returned unchanged together
with the empty registry. -/
theorem c7_ineligible_no_side_effects_witness :
    Request._fetchCallback (fun _ => false) none Fixtures.fetchStartW [] =
      ⟨Fixtures.fetchStartW, [], none⟩ ∧
    Request.xhrCallback (fun _ => false) none Fixtures.xhrStartW [] =
      ⟨Fixtures.xhrStartW, [], none⟩ :=
  ⟨c7_ineligible_no_side_effects.1 (fun _ => false) none Fixtures.fetchStartW []
      Fixtures.fetchDataW rfl rfl,
   c7_ineligible_no_side_effects.2 (fun _ => false) none Fixtures.xhrStartW []
      Fixtures.xhrSideW Fixtures.xhrInfoW rfl rfl rfl⟩

/-- C10: an XHR event flagged as the engine's own outgoing request
(`__sentry_own_request__`) makes `xhrCallback` return before creating,
registering or finalizing any span: the event and the registry come back
unchanged and no header is written. -/
theorem c10_own_request_no_op (s : String → Bool) (t : Option Request.Transaction)
    (h : Request.XhrEvent) (spans : List (String × Request.Span)) (x : Request.XhrSide)
    (hx : h.xhr = some x) (hown : x.own_request = true) :
    Request.xhrCallback s t h spans = ⟨h, spans, none⟩ := by
  unfold Request.xhrCallback
  rw [hx]
  rcases hinfo : x.sentry_xhr with _ | info
  · simp [hinfo]
  · rcases hsel : s info.url with _ | _
    · simp [hinfo, hsel, hown]
    · simp [hinfo, hsel, hown]

/-- C10 witness: a concrete own-request XHR start event is a no-op even under
an all-accepting eligibility predicate and despite a working header sink. -/
theorem c10_own_request_no_op_witness :
    Request.xhrCallback (fun _ => true) (some Fixtures.tW) Fixtures.xhrOwnW [] =
      ⟨Fixtures.xhrOwnW, [], none⟩ :=
  c10_own_request_no_op (fun _ => true) (some Fixtures.tW) Fixtures.xhrOwnW []
    { Fixtures.xhrSideW with own_request := true } rfl rfl

/-- C2 counterexample: the fetch start path assigns `spans[span.spanId] = span`
with no in-use check — when the registry already holds an entry under the id
the new span receives (`"def"`), the prior entry is silently overwritten and
the new span IS tracked, with no diagnostic; the claim that the prior entry
is left untouched and the new span is not tracked is false. -/
theorem c2_counterexample :
    Request.lookupKey (Request._fetchCallback (fun _ => true) (some Fixtures.tW)
        Fixtures.fetchStartW [("def", Fixtures.oldSpanW)]).spans "def" =
      some (Request.fetchSpanOf Fixtures.tW Fixtures.fetchDataW) ∧
    Request.fetchSpanOf Fixtures.tW Fixtures.fetchDataW ≠ Fixtures.oldSpanW ∧
    (Request._fetchCallback (fun _ => true) (some Fixtures.tW)
        Fixtures.fetchStartW [("def", Fixtures.oldSpanW)]).spans =
      [("def", Request.fetchSpanOf Fixtures.tW Fixtures.fetchDataW)] := by
  decide

/-- C2 (amended): registering a span at operation start is the plain map
assignment `spans[span.spanId] = span`: the new span is always tracked under
its id, overwriting (not preserving) any prior entry under that key; no
duplicate-key check exists and no diagnostic is emitted. In practice keys
are freshly generated span ids, so collisions do not arise in normal
operation. -/
theorem c2_begin_overwrites :
    (∀ (s : String → Bool) (t : Request.Transaction) (h : Request.FetchEvent)
        (spans : List (String × Request.Span)) (fd : Request.FetchData),
        h.fetchData = some fd → s fd.url = true →
        (Request.jsTruthyNum h.endTimestamp && Request.jsTruthyStr fd.span) = false →
        (Request._fetchCallback s (some t) h spans).spans =
          Request.setKey spans (Request.fetchSpanOf t fd).spanId (Request.fetchSpanOf t fd) ∧
        Request.lookupKey (Request._fetchCallback s (some t) h spans).spans
          (Request.fetchSpanOf t fd).spanId = some (Request.fetchSpanOf t fd)) ∧
    (∀ (s : String → Bool) (t : Request.Transaction) (h : Request.XhrEvent)
        (spans : List (String × Request.Span)) (x : Request.XhrSide)
        (info : Request.XhrInfo),
        h.xhr = some x → x.sentry_xhr = some info → s info.url = true →
        x.own_request = false →
        (Request.jsTruthyNum h.endTimestamp && Request.jsTruthyStr x.span_id) = false →
        (Request.xhrCallback s (some t) h spans).spans =
          Request.setKey spans (Request.xhrSpanOf t info).spanId (Request.xhrSpanOf t info) ∧
        Request.lookupKey (Request.xhrCallback s (some t) h spans).spans
          (Request.xhrSpanOf t info).spanId = some (Request.xhrSpanOf t info)) := by
  constructor
  · intro s t h spans fd hfd hs hend
    rw [Request.fetchCallback_startPath s t h spans fd hfd hs hend]
    exact ⟨rfl, Request.lookupKey_setKey_self _ _ _⟩
  · intro s t h spans x info hx hinfo hs hown hend
    rw [Request.xhrCallback_startPath s t h spans x info hx hinfo hs hown hend]
    exact ⟨rfl, Request.lookupKey_setKey_self _ _ _⟩

/-- C2 witness: at the concrete registry `[("def", oldSpanW)]` the start path
stores the new span under the in-use key `"def"` (so the lookup returns the
new span, not the old one). -/
theorem c2_begin_overwrites_witness :
    (Request._fetchCallback (fun _ => true) (some Fixtures.tW)
        Fixtures.fetchStartW [("def", Fixtures.oldSpanW)]).spans =
      Request.setKey [("def", Fixtures.oldSpanW)]
        (Request.fetchSpanOf Fixtures.tW Fixtures.fetchDataW).spanId
        (Request.fetchSpanOf Fixtures.tW Fixtures.fetchDataW) ∧
    Request.lookupKey (Request._fetchCallback (fun _ => true) (some Fixtures.tW)
        Fixtures.fetchStartW [("def", Fixtures.oldSpanW)]).spans
      (Request.fetchSpanOf Fixtures.tW Fixtures.fetchDataW).spanId =
      some (Request.fetchSpanOf Fixtures.tW Fixtures.fetchDataW) :=
  c2_begin_overwrites.1 (fun _ => true) Fixtures.tW Fixtures.fetchStartW
    [("def", Fixtures.oldSpanW)] Fixtures.fetchDataW rfl rfl rfl

/-- C3: in both callbacks, a first end event for a registered key removes the
entry and finalizes exactly the registered span (with the end-path status
updates applied); run again on the resulting registry the same end event
finalizes nothing and leaves the registry unchanged, and more generally an
end event whose key is not registered is a silent no-op. -/
theorem c3_end_event_semantics :
    (∀ (s : String → Bool) (t : Option Request.Transaction) (h : Request.FetchEvent)
        (spans : List (String × Request.Span)) (fd : Request.FetchData)
        (key : String) (sp : Request.Span),
        Request.keysUnique spans →
        h.fetchData = some fd → s fd.url = true → fd.span = some key →
        (Request.jsTruthyNum h.endTimestamp && Request.jsTruthyStr fd.span) = true →
        Request.lookupKey spans key = some sp →
        Request._fetchCallback s t h spans =
          ⟨h, Request.eraseKey spans key,
           some (Request.applyResponseStatus h.response sp).finish⟩ ∧
        Request._fetchCallback s t h (Request.eraseKey spans key) =
          ⟨h, Request.eraseKey spans key, none⟩) ∧
    (∀ (s : String → Bool) (t : Option Request.Transaction) (h : Request.FetchEvent)
        (spans : List (String × Request.Span)) (fd : Request.FetchData) (key : String),
        h.fetchData = some fd → s fd.url = true → fd.span = some key →
        (Request.jsTruthyNum h.endTimestamp && Request.jsTruthyStr fd.span) = true →
        Request.lookupKey spans key = none →
        Request._fetchCallback s t h spans = ⟨h, spans, none⟩) ∧
    (∀ (s : String → Bool) (t : Option Request.Transaction) (h : Request.XhrEvent)
        (spans : List (String × Request.Span)) (x : Request.XhrSide)
        (info : Request.XhrInfo) (key : String) (sp : Request.Span),
        Request.keysUnique spans →
        h.xhr = some x → x.sentry_xhr = some info → s info.url = true →
        x.own_request = false → x.span_id = some key →
        (Request.jsTruthyNum h.endTimestamp && Request.jsTruthyStr x.span_id) = true →
        Request.lookupKey spans key = some sp →
        Request.xhrCallback s t h spans =
          ⟨h, Request.eraseKey spans key,
           some ((((sp.setData "url" info.url).setData "method" info.method).setHttpStatus
             info.status_code).finish)⟩ ∧
        Request.xhrCallback s t h (Request.eraseKey spans key) =
          ⟨h, Request.eraseKey spans key, none⟩) ∧
    (∀ (s : String → Bool) (t : Option Request.Transaction) (h : Request.XhrEvent)
        (spans : List (String × Request.Span)) (x : Request.XhrSide)
        (info : Request.XhrInfo) (key : String),
        h.xhr = some x → x.sentry_xhr = some info → s info.url = true →
        x.own_request = false → x.span_id = some key →
        (Request.jsTruthyNum h.endTimestamp && Request.jsTruthyStr x.span_id) = true →
        Request.lookupKey spans key = none →
        Request.xhrCallback s t h spans = ⟨h, spans, none⟩) := by
  refine ⟨?_, ?_, ?_, ?_⟩
  · intro s t h spans fd key sp hu hfd hs hkey hend hl
    exact ⟨Request.fetchCallback_endPath s t h spans fd key sp hfd hs hkey hend hl,
      Request.fetchCallback_endPath_missing s t h (Request.eraseKey spans key) fd key
        hfd hs hkey hend (Request.lookupKey_eraseKey_self spans key hu)⟩
  · intro s t h spans fd key hfd hs hkey hend hl
    exact Request.fetchCallback_endPath_missing s t h spans fd key hfd hs hkey hend hl
  · intro s t h spans x info key sp hu hx hinfo hs hown hkey hend hl
    exact ⟨Request.xhrCallback_endPath s t h spans x info key sp hx hinfo hs hown hkey hend hl,
      Request.xhrCallback_endPath_missing s t h (Request.eraseKey spans key) x info key
        hx hinfo hs hown hkey hend (Request.lookupKey_eraseKey_self spans key hu)⟩
  · intro s t h spans x info key hx hinfo hs hown hkey hend hl
    exact Request.xhrCallback_endPath_missing s t h spans x info key hx hinfo hs hown hkey
      hend hl

/-- C3 witness: for the concrete registry `[("k", regSpanW)]`, the fetch end
event for key `"k"` finalizes the registered span (status 200 applied) and
empties the registry, and the second identical end event finalizes nothing;
the XHR end event behaves the same way. -/
theorem c3_end_event_semantics_witness :
    (Request._fetchCallback (fun _ => true) none Fixtures.fetchEndW
        [("k", Fixtures.regSpanW)] =
      ⟨Fixtures.fetchEndW, Request.eraseKey [("k", Fixtures.regSpanW)] "k",
       some (Request.applyResponseStatus Fixtures.fetchEndW.response
         Fixtures.regSpanW).finish⟩ ∧
     Request._fetchCallback (fun _ => true) none Fixtures.fetchEndW
        (Request.eraseKey [("k", Fixtures.regSpanW)] "k") =
      ⟨Fixtures.fetchEndW, Request.eraseKey [("k", Fixtures.regSpanW)] "k", none⟩) ∧
    (Request.xhrCallback (fun _ => true) none Fixtures.xhrEndW
        [("k", Fixtures.regSpanW)] =
      ⟨Fixtures.xhrEndW, Request.eraseKey [("k", Fixtures.regSpanW)] "k",
       some ((((Fixtures.regSpanW.setData "url" Fixtures.xhrInfoW.url).setData "method"
         Fixtures.xhrInfoW.method).setHttpStatus Fixtures.xhrInfoW.status_code).finish)⟩ ∧
     Request.xhrCallback (fun _ => true) none Fixtures.xhrEndW
        (Request.eraseKey [("k", Fixtures.regSpanW)] "k") =
      ⟨Fixtures.xhrEndW, Request.eraseKey [("k", Fixtures.regSpanW)] "k", none⟩) :=
  ⟨c3_end_event_semantics.1 (fun _ => true) none Fixtures.fetchEndW
      [("k", Fixtures.regSpanW)] { method := "GET", url := "localhost/api", span := some "k" }
      "k" Fixtures.regSpanW (by simp [Request.keysUnique]) rfl rfl rfl (by decide) rfl,
   c3_end_event_semantics.2.2.1 (fun _ => true) none Fixtures.xhrEndW
      [("k", Fixtures.regSpanW)] { Fixtures.xhrSideW with span_id := some "k" }
      Fixtures.xhrInfoW "k" Fixtures.regSpanW (by simp [Request.keysUnique]) rfl rfl rfl rfl rfl
      (by decide) rfl⟩

/-- C6 counterexample: when the event's header sink is a plain mapping that
already contains a `sentry-trace` entry, the write `{...headers,
'sentry-trace': value}` replaces that entry — the pre-existing entry
`("sentry-trace", "old")` is NOT preserved in the result, contradicting the
claim that in the mapping case every header entry already present is
preserved. -/
theorem c6_counterexample :
    (Request._fetchCallback (fun _ => true) (some Fixtures.tW) Fixtures.fetchStartMapW
        []).event.optionsArg =
      some { headers := some (Request.HeadersVal.mapping [("sentry-trace", "abc-def-1")]) } ∧
    ("abc-def-1" : String) ≠ "old" := by
  decide

/-- C6 (amended): on an eligible start event with an active transaction the
callback writes the serialized trace header exactly once into the event's
sink using the single strategy matching the sink's shape; existing entries
are fully preserved in the append-capable and pair-list cases, and in the
mapping case every entry under a name other than `sentry-trace` is
preserved while an existing `sentry-trace` entry is replaced by the new
value. -/
theorem c6_header_write (s : String → Bool) (t : Request.Transaction)
    (h : Request.FetchEvent) (spans : List (String × Request.Span)) (fd : Request.FetchData)
    (hfd : h.fetchData = some fd) (hs : s fd.url = true)
    (hend : (Request.jsTruthyNum h.endTimestamp && Request.jsTruthyStr fd.span) = false) :
    ((Request._fetchCallback s (some t) h spans).event.optionsArg =
      some { headers := some (Request.addTraceHeader
        (Request.fetchSpanOf t fd).toTraceparent (Request.effectiveSink h)) }) ∧
    (∀ hs0, Request.effectiveSink h = some (Request.HeadersVal.appendable hs0) →
      Request.addTraceHeader (Request.fetchSpanOf t fd).toTraceparent
          (Request.effectiveSink h) =
        Request.HeadersVal.appendable
          (hs0 ++ [("sentry-trace", (Request.fetchSpanOf t fd).toTraceparent)])) ∧
    (∀ hs0, Request.effectiveSink h = some (Request.HeadersVal.pairs hs0) →
      Request.addTraceHeader (Request.fetchSpanOf t fd).toTraceparent
          (Request.effectiveSink h) =
        Request.HeadersVal.pairs
          (hs0 ++ [("sentry-trace", (Request.fetchSpanOf t fd).toTraceparent)])) ∧
    (∀ hs0, Request.effectiveSink h = some (Request.HeadersVal.mapping hs0) →
      Request.addTraceHeader (Request.fetchSpanOf t fd).toTraceparent
          (Request.effectiveSink h) =
        Request.HeadersVal.mapping
          (Request.setKey hs0 "sentry-trace" (Request.fetchSpanOf t fd).toTraceparent) ∧
      (∀ k w, ¬k = "sentry-trace" → Request.lookupKey hs0 k = some w →
        Request.lookupKey
          (Request.setKey hs0 "sentry-trace" (Request.fetchSpanOf t fd).toTraceparent) k =
          some w) ∧
      Request.lookupKey
        (Request.setKey hs0 "sentry-trace" (Request.fetchSpanOf t fd).toTraceparent)
        "sentry-trace" = some (Request.fetchSpanOf t fd).toTraceparent) := by
  refine ⟨?_, ?_, ?_, ?_⟩
  · rw [Request.fetchCallback_startPath s t h spans fd hfd hs hend]
  · intro hs0 hsel
    rw [hsel]
    rfl
  · intro hs0 hsel
    rw [hsel]
    rfl
  · intro hs0 hsel
    refine ⟨by rw [hsel]; rfl, fun k w hk hw => ?_, Request.lookupKey_setKey_self _ _ _⟩
    rw [Request.lookupKey_setKey_ne hs0 "sentry-trace" k _ hk]
    exact hw

/-- C6 witness: for the concrete event whose mapping sink already holds a
`sentry-trace` entry, the result sink is exactly `addTraceHeader` of the
effective sink, and the mapping now maps `sentry-trace` to the new value. -/
theorem c6_header_write_witness :
    ((Request._fetchCallback (fun _ => true) (some Fixtures.tW) Fixtures.fetchStartMapW
        []).event.optionsArg =
      some { headers := some (Request.addTraceHeader
        (Request.fetchSpanOf Fixtures.tW Fixtures.fetchDataW).toTraceparent
        (Request.effectiveSink Fixtures.fetchStartMapW)) }) ∧
    Request.lookupKey (Request.setKey [("sentry-trace", "old")] "sentry-trace"
        (Request.fetchSpanOf Fixtures.tW Fixtures.fetchDataW).toTraceparent)
      "sentry-trace" =
      some (Request.fetchSpanOf Fixtures.tW Fixtures.fetchDataW).toTraceparent :=
  ⟨(c6_header_write (fun _ => true) Fixtures.tW Fixtures.fetchStartMapW []
      Fixtures.fetchDataW rfl rfl rfl).1,
   ((c6_header_write (fun _ => true) Fixtures.tW Fixtures.fetchStartMapW []
      Fixtures.fetchDataW rfl rfl rfl).2.2.2 [("sentry-trace", "old")] rfl).2.2⟩

/-- C8: on an eligible XHR start event with an active transaction whose
`setRequestHeader` throws, the exception is swallowed at the write site: the
created span is still registered in the registry under its id, the span id is
still stashed on the xhr object, no header is recorded, and the callback
returns normally (no finalization, no abort). -/
theorem c8_sink_throw_caught (s : String → Bool) (t : Request.Transaction)
    (h : Request.XhrEvent) (spans : List (String × Request.Span)) (x : Request.XhrSide)
    (info : Request.XhrInfo)
    (hx : h.xhr = some x) (hinfo : x.sentry_xhr = some info) (hs : s info.url = true)
    (hown : x.own_request = false)
    (hend : (Request.jsTruthyNum h.endTimestamp && Request.jsTruthyStr x.span_id) = false)
    (hthrow : x.sink = Request.SinkBehavior.throws) :
    Request.xhrCallback s (some t) h spans =
      ⟨{ h with xhr := some { x with span_id := some (Request.xhrSpanOf t info).spanId } },
       Request.setKey spans (Request.xhrSpanOf t info).spanId (Request.xhrSpanOf t info),
       none⟩ ∧
    Request.lookupKey (Request.xhrCallback s (some t) h spans).spans
      (Request.xhrSpanOf t info).spanId = some (Request.xhrSpanOf t info) := by
  rw [Request.xhrCallback_startPath s t h spans x info hx hinfo hs hown hend]
  refine ⟨?_, Request.lookupKey_setKey_self _ _ _⟩
  simp [Request.xhrWriteHeader, hthrow]

/-- C8 witness: the concrete throwing-sink XHR start event still registers the
new span under its id and records no header. -/
theorem c8_sink_throw_caught_witness :
    Request.xhrCallback (fun _ => true) (some Fixtures.tW) Fixtures.xhrThrowW [] =
      ⟨{ Fixtures.xhrThrowW with xhr := some { Fixtures.xhrSideW with
          sink := Request.SinkBehavior.throws,
          span_id := some (Request.xhrSpanOf Fixtures.tW Fixtures.xhrInfoW).spanId } },
       Request.setKey [] (Request.xhrSpanOf Fixtures.tW Fixtures.xhrInfoW).spanId
         (Request.xhrSpanOf Fixtures.tW Fixtures.xhrInfoW), none⟩ ∧
    Request.lookupKey (Request.xhrCallback (fun _ => true) (some Fixtures.tW)
        Fixtures.xhrThrowW []).spans
      (Request.xhrSpanOf Fixtures.tW Fixtures.xhrInfoW).spanId =
      some (Request.xhrSpanOf Fixtures.tW Fixtures.xhrInfoW) :=
  c8_sink_throw_caught (fun _ => true) Fixtures.tW Fixtures.xhrThrowW []
    { Fixtures.xhrSideW with sink := Request.SinkBehavior.throws } Fixtures.xhrInfoW
    rfl rfl rfl rfl rfl rfl

/-- C9: with no sampler configured and no explicit caller decision, a
transaction created with a parent sampling decision in its context adopts
the parent's decision verbatim, whatever the configured fixed sample rate —
inheritance wins over the local rate. -/
theorem c9_parent_inheritance (cfg : Sampling.SamplingConfig) (ctx : Sampling.SamplingCtx)
    (draw : ℚ) (b : Bool)
    (hsampler : cfg.sampler = none) (hexp : ctx.explicitSampled = none)
    (hparent : ctx.parentSampled = some b) :
    Sampling.sampleTransaction cfg ctx draw = b := by
  unfold Sampling.sampleTransaction
  rw [hexp]
  simp [hsampler, hparent]

/-- C9 witness: with `sampleRate = 1` and no sampler, a parent decision of
`false` yields `sampled = false`, while the same configuration without a
parent decision samples the transaction. -/
theorem c9_parent_inheritance_witness :
    Sampling.sampleTransaction
      { sampleRate := some (Sampling.SampleValue.ofNum 1), sampler := none }
      { explicitSampled := none, parentSampled := some false } 0 = false ∧
    Sampling.sampleTransaction
      { sampleRate := some (Sampling.SampleValue.ofNum 1), sampler := none }
      { explicitSampled := none, parentSampled := none } 0 = true :=
  ⟨c9_parent_inheritance
      { sampleRate := some (Sampling.SampleValue.ofNum 1), sampler := none }
      { explicitSampled := none, parentSampled := some false } 0 false rfl rfl rfl,
   by decide⟩
